import Mathlib

/-!
Verification of the voxbridge real-time audio ingestion and segmentation
pipeline.  The definitions below are a shallow embedding of the Python
sources: `config.py`, `silero_vad.py` (SileroVAD), `loopback_capture.py`
(LoopbackCapture), `mic_capture.py` (MicCapture), `audio_player.py`
(AudioPlayer), `argos_translate.py` (translate_text) and `whisper_asr.py`
(WhisperASR).  Audio samples and timestamps are modelled as rationals;
numpy arrays become lists; a bounded queue becomes a capacity together
with its item list; exceptions become explicit outcome values.  The
speech-probability model (an external torch network) is an abstract
function parameter, as are the external translation and recognition
engines.
-/

/-! ## config.py -/

namespace config

/-- config.SAMPLE_RATE = 16000 -/
def SAMPLE_RATE : ℕ := 16000

/-- config.MIN_SPEECH_DURATION_S = 0.5 -/
def MIN_SPEECH_DURATION_S : ℚ := 1 / 2

/-- config.MAX_SPEECH_DURATION_S = 15.0 -/
def MAX_SPEECH_DURATION_S : ℚ := 15

/-- config.VAD_THRESHOLD = 0.4 -/
def VAD_THRESHOLD : ℚ := 2 / 5

/-- config.VAD_MIN_SILENCE_MS = 600 -/
def VAD_MIN_SILENCE_MS : ℚ := 600

/-- config.FEEDBACK_GATE_BUFFER_S = 0.3 -/
def FEEDBACK_GATE_BUFFER_S : ℚ := 3 / 10

/-- config.QUEUE_MAX_SIZE = 50 -/
def QUEUE_MAX_SIZE : ℕ := 50

end config

/-! ## Bounded queues

An asyncio.Queue(maxsize=cap) or queue.Queue(maxsize=cap) is modelled by its
capacity and current item list (front of list = front of queue). -/

structure BQueue (α : Type) where
  cap : ℕ
  items : List α
  deriving Repr, DecidableEq

/-- asyncio.Queue.full(): qsize() >= maxsize. -/
def BQueue.full {α : Type} (q : BQueue α) : Bool :=
  q.cap ≤ q.items.length

/-- The `_safe_put` closure used by both capture callbacks: enqueue only when
the queue is not full, otherwise drop the incoming chunk. -/
def BQueue.safe_put {α : Type} (q : BQueue α) (x : α) : BQueue α :=
  if q.full then q else ⟨q.cap, q.items ++ [x]⟩

/-! ## Channel-to-mono conversion shared by the capture callbacks

`indata` is a frames-by-channels block; a frame is the list of its per-channel
samples, `channels` its channel count (`indata.shape[1]`). -/

/-- indata.mean(axis=1) when shape[1] > 1, else indata[:, 0]. -/
def toMono (channels : ℕ) (indata : List (List ℚ)) : List ℚ :=
  if 1 < channels then
    indata.map (fun frame => frame.sum / (channels : ℚ))
  else
    indata.map (fun frame => frame.headD 0)

/-! ## loopback_capture.py -/

namespace LoopbackCapture

/-- LoopbackCapture.set_gate: gate_end = now + duration_s + FEEDBACK_GATE_BUFFER_S;
gate_until = max(gate_until, gate_end). Returns the new `_gate_until`. -/
def set_gate (gate_until now duration_s : ℚ) : ℚ :=
  max gate_until (now + duration_s + config.FEEDBACK_GATE_BUFFER_S)

/-- LoopbackCapture.is_gated: time.monotonic() < self._gate_until. -/
def is_gated (gate_until now : ℚ) : Bool :=
  now < gate_until

/-- A sequence of set_gate (arm) calls, each a (now, duration) pair, folded
over the gate timestamp. -/
def armSeq (gate_until : ℚ) (calls : List (ℚ × ℚ)) : ℚ :=
  calls.foldl (fun g c => set_gate g c.1 c.2) gate_until

/-- LoopbackCapture._audio_callback: drops the block when not running or
gated, otherwise converts to mono and does a non-blocking enqueue.  Returns
the audio queue after the call; the callback writes no other state. -/
def audio_callback (running : Bool) (gate_until now : ℚ) (channels : ℕ)
    (indata : List (List ℚ)) (q : BQueue (List ℚ)) : BQueue (List ℚ) :=
  if !running || is_gated gate_until now then q
  else q.safe_put (toMono channels indata)

end LoopbackCapture

/-! ## The resampling step inside _make_resampling_callback -/

/-- np.linspace a b num: num evenly spaced points from a to b inclusive. -/
def linspace (a b : ℚ) (num : ℕ) : List ℚ :=
  if num = 0 then []
  else if num = 1 then [a]
  else (List.range num).map (fun i : ℕ => a + (b - a) * (i : ℚ) / ((num : ℚ) - 1))

/-- np.interp x (np.arange n) mono: linear interpolation of mono on the
integer grid 0, 1, ..., n-1, clamped at the right end. -/
def interpAt (mono : List ℚ) (x : ℚ) : ℚ :=
  let n := mono.length
  let i := (⌊x⌋).toNat
  if i + 1 < n then
    mono.getD i 0 + (x - (i : ℚ)) * (mono.getD (i + 1) 0 - mono.getD i 0)
  else
    mono.getD (n - 1) 0

/-- The resampling step of resampling_callback: when len(mono) > 1,
new_len = int(len(mono) * (target_sr / native_sr)) samples obtained by
linear interpolation at np.linspace(0, len(mono)-1, new_len); otherwise the
block is passed through unchanged. -/
def resampleBlock (native_sr target_sr : ℕ) (mono : List ℚ) : List ℚ :=
  if 1 < mono.length then
    let new_len := mono.length * target_sr / native_sr
    (linspace 0 ((mono.length : ℚ) - 1) new_len).map (interpAt mono)
  else mono

namespace LoopbackCapture

/-- The resampling_callback closure produced by _make_resampling_callback
when native_sr differs from the target rate: same gate and running checks as
_audio_callback, then mono conversion, the resampling step, and a
non-blocking enqueue. -/
def resampling_callback (running : Bool) (gate_until now : ℚ)
    (channels native_sr : ℕ) (indata : List (List ℚ))
    (q : BQueue (List ℚ)) : BQueue (List ℚ) :=
  if !running || is_gated gate_until now then q
  else q.safe_put (resampleBlock native_sr config.SAMPLE_RATE (toMono channels indata))

end LoopbackCapture

/-! ## mic_capture.py -/

namespace MicCapture

/-- MicCapture._audio_callback: when running, take column 0 of the block and
do a non-blocking enqueue; the mic callback has no gate. -/
def audio_callback (running : Bool) (q : BQueue (List ℚ))
    (indata : List (List ℚ)) : BQueue (List ℚ) :=
  if running then q.safe_put (indata.map (fun frame => frame.headD 0)) else q

end MicCapture

/-! ## audio_player.py -/

namespace AudioPlayer

/-- The play queue built in AudioPlayer.__init__: queue.Queue(maxsize=20). -/
def new_play_queue : BQueue (List ℚ) := ⟨20, []⟩

/-- AudioPlayer.play: returns unchanged when TTS output is disabled or the
clip is empty; otherwise put_nowait, dropping the clip when the queue is
full (queue.Full is swallowed with a warning). -/
def play (enable_tts_output : Bool) (q : BQueue (List ℚ))
    (audio : List ℚ) : BQueue (List ℚ) :=
  if !enable_tts_output then q
  else if audio.length = 0 then q
  else if q.full then q else ⟨q.cap, q.items ++ [audio]⟩

end AudioPlayer

/-! ## silero_vad.py -/

/-- The mutable per-channel state of SileroVAD: _speech_buffer,
_is_speaking, _silence_start, _speech_start, _leftover. -/
structure VADState where
  speech_buffer : List (List ℚ)
  is_speaking : Bool
  silence_start : Option ℚ
  speech_start : Option ℚ
  leftover : List ℚ
  deriving Repr, DecidableEq

/-- The state established by SileroVAD.__init__ and restored by
SileroVAD.reset. -/
def VADState.init : VADState :=
  ⟨[], false, none, none, []⟩

/-- The `while pos + 512 <= len(audio_chunk)` slicing loop: full analysis
windows of n samples, in order, plus the remaining tail of fewer than n
samples. -/
def splitWindows (n : ℕ) (audio : List ℚ) : List (List ℚ) × List ℚ :=
  if h : 0 < n ∧ n ≤ audio.length then
    let rest := splitWindows n (audio.drop n)
    (audio.take n :: rest.1, rest.2)
  else ([], audio)
termination_by audio.length
decreasing_by simp only [List.length_drop]; omega

/-- One iteration of the window loop in SileroVAD.process_chunk, given the
precomputed speech probability p of window w, the shared call timestamp
`now`, the current state and the result accumulated so far. -/
def stepWindow (now : ℚ) (w : List ℚ) (p : ℚ) (s : VADState)
    (r : Option (List ℚ)) : VADState × Option (List ℚ) :=
  let a : VADState × Option (List ℚ) :=
    if p ≥ config.VAD_THRESHOLD then
      ({ s with silence_start := none,
                is_speaking := true,
                speech_start := if s.is_speaking then s.speech_start else some now,
                speech_buffer := s.speech_buffer ++ [w] }, r)
    else if s.is_speaking then
      match s.silence_start with
      | none =>
          ({ s with speech_buffer := s.speech_buffer ++ [w],
                    silence_start := some now }, r)
      | some t =>
          if (now - t) * 1000 ≥ config.VAD_MIN_SILENCE_MS then
            let utterance := (s.speech_buffer ++ [w]).flatten
            if 0 < (s.speech_buffer ++ [w]).length then
              if (utterance.length : ℚ) / (config.SAMPLE_RATE : ℚ)
                  ≥ config.MIN_SPEECH_DURATION_S then
                (VADState.init, some utterance)
              else
                (VADState.init, r)
            else (VADState.init, r)
          else
            ({ s with speech_buffer := s.speech_buffer ++ [w] }, r)
    else (s, r)
  -- Safety: force emit if buffer too long
  if a.1.is_speaking then
    match a.1.speech_start with
    | some ts =>
        if now - ts ≥ config.MAX_SPEECH_DURATION_S then
          (VADState.init,
           if 0 < a.1.speech_buffer.length then some a.1.speech_buffer.flatten else a.2)
        else a
    | none => a
  else a

/-- SileroVAD.process_chunk: prepend the leftover tail, slice into 512-sample
analysis windows, run the window loop (with `now = time.monotonic()` sampled
once per call), and retain the unanalyzed tail as the new leftover.  `prob`
abstracts _get_speech_prob (the Silero model or the energy fallback). -/
def process_chunk (prob : List ℚ → ℚ) (s : VADState) (now : ℚ)
    (audio_chunk : List ℚ) : VADState × Option (List ℚ) :=
  let audio := s.leftover ++ audio_chunk
  let s0 : VADState := { s with leftover := [] }
  let ws := splitWindows 512 audio
  let out := ws.1.foldl (fun acc w => stepWindow now w (prob w) acc.1 acc.2) (s0, none)
  ({ out.1 with leftover := ws.2 }, out.2)

/-! ## argos_translate.py -/

/-- Python str.strip(): drop leading and trailing whitespace. -/
def pyStrip (s : String) : String :=
  String.mk (((s.data.dropWhile Char.isWhitespace).reverse.dropWhile
    Char.isWhitespace).reverse)

/-- translate_text, with argostranslate.translate.translate abstracted as an
engine that either returns a translation or raises. -/
def translate_text (engine : String → String → String → Except String String)
    (text from_lang to_lang : String) : String :=
  if text = "" ∨ pyStrip text = "" then ""
  else if from_lang = to_lang then text
  else
    match engine (pyStrip text) from_lang to_lang with
    | Except.ok result => result
    | Except.error _ => "[Translation error: " ++ text ++ "]"

/-! ## whisper_asr.py -/

/-- Outcome of a Python call: a returned value or a raised exception. -/
inductive PyOutcome (α : Type) where
  | ok (value : α)
  | raised (message : String)
  deriving Repr, DecidableEq

/-- LANG_MAP from whisper_asr.py. -/
def LANG_MAP : List (String × String) :=
  [("en", "en"), ("ja", "ja"), ("hi", "hi")]

namespace WhisperASR

/-- WhisperASR.transcribe: raises RuntimeError when the model is not loaded;
otherwise calls the engine (model.transcribe plus segment iteration,
abstracted as returning the segment texts or raising), strips each segment
text, keeps the non-empty ones, joins them with single spaces, and returns
the empty string when the engine raises. -/
def transcribe (model : Option Unit)
    (engine : List ℚ → String → Except String (List String))
    (audio : List ℚ) (language : String) : PyOutcome String :=
  match model with
  | none => PyOutcome.raised "Whisper model not loaded. Call load() first."
  | some _ =>
      let whisper_lang := (LANG_MAP.lookup language).getD language
      match engine audio whisper_lang with
      | Except.error _ => PyOutcome.ok ""
      | Except.ok segments =>
          let texts := (segments.map pyStrip).filter (fun t => t ≠ "")
          PyOutcome.ok (String.intercalate " " texts)

end WhisperASR

/-! ## Concrete probability model and windows used in concrete runs -/

/-- A concrete speech-probability function: the first sample of the window
(1 for our speech windows, 0 for our silence windows). -/
def probHead : List ℚ → ℚ := fun w => w.headD 0

/-- A 512-sample all-ones (speech) analysis window. -/
def w1 : List ℚ := List.replicate 512 1

/-- A 512-sample all-zeros (silence) analysis window. -/
def w0 : List ℚ := List.replicate 512 0

/-- 469 consecutive speech windows fed as one input chunk (240128 samples,
a bit over 15 seconds of audio at 16 kHz). -/
def chunk1 : List ℚ := (List.replicate 469 w1).flatten

/-- A translation engine that never raises (echoes its input). -/
def okEngine : String → String → String → Except String String :=
  fun t _ _ => Except.ok t

/-- A recognition engine that always raises. -/
def errEngine : List ℚ → String → Except String (List String) :=
  fun _ _ => Except.error "boom"

/-! ## Theorems -/

/-- Arming the gate never moves the timestamp backwards. -/
theorem set_gate_le (g now d : ℚ) : g ≤ LoopbackCapture.set_gate g now d :=
  le_max_left _ _

/-- C2. set_gate(d) at time now sets gate_until to
max(old, now + d + FEEDBACK_GATE_BUFFER_S); across any sequence of arm
calls gate_until never decreases; and an arm with a smaller duration
immediately after (same timestamp) a larger one leaves gate_until
unchanged. -/
theorem C2_set_gate_monotone_max (g now d d1 d2 : ℚ) (calls : List (ℚ × ℚ))
    (h : d2 < d1) :
    LoopbackCapture.set_gate g now d
        = max g (now + d + config.FEEDBACK_GATE_BUFFER_S)
    ∧ g ≤ LoopbackCapture.armSeq g calls
    ∧ LoopbackCapture.set_gate (LoopbackCapture.set_gate g now d1) now d2
        = LoopbackCapture.set_gate g now d1 := by
  refine ⟨rfl, ?_, ?_⟩
  · induction calls generalizing g with
    | nil => exact le_refl g
    | cons c cs ih =>
        exact le_trans (set_gate_le g c.1 c.2) (ih _)
  · unfold LoopbackCapture.set_gate
    rw [max_eq_left]
    exact le_trans (by linarith) (le_max_right _ _)

/-- Witness for C2 at concrete inputs. -/
theorem C2_witness :
    LoopbackCapture.set_gate 0 0 1 = max 0 (0 + 1 + config.FEEDBACK_GATE_BUFFER_S)
    ∧ (0 : ℚ) ≤ LoopbackCapture.armSeq 0 [(0, 1), (2, 3)]
    ∧ LoopbackCapture.set_gate (LoopbackCapture.set_gate 0 0 2) 0 1
        = LoopbackCapture.set_gate 0 0 2 :=
  C2_set_gate_monotone_max 0 0 1 2 1 [(0, 1), (2, 3)] (by norm_num)

/-- C3. When the callback runs at a time strictly before gate_until, both the
direct loopback callback and the resampling callback leave the audio queue
(and all other state) unchanged: the block is dropped entirely. -/
theorem C3_gated_callback_drops (running : Bool) (gate_until now : ℚ)
    (channels native_sr : ℕ) (indata : List (List ℚ)) (q : BQueue (List ℚ))
    (h : now < gate_until) :
    LoopbackCapture.audio_callback running gate_until now channels indata q = q
    ∧ LoopbackCapture.resampling_callback running gate_until now channels
        native_sr indata q = q := by
  have hg : LoopbackCapture.is_gated gate_until now = true := by
    simp only [LoopbackCapture.is_gated, decide_eq_true_eq]
    exact h
  constructor
  · simp [LoopbackCapture.audio_callback, hg]
  · simp [LoopbackCapture.resampling_callback, hg]

/-- Witness for C3 at concrete inputs. -/
theorem C3_witness :
    LoopbackCapture.audio_callback true 2 1 2 [[1, 1]] ⟨50, []⟩ = ⟨50, []⟩
    ∧ LoopbackCapture.resampling_callback true 2 1 2 48000 [[1, 1]] ⟨50, []⟩
        = ⟨50, []⟩ :=
  C3_gated_callback_drops true 2 1 2 48000 [[1, 1]] ⟨50, []⟩ (by norm_num)

/-- C5. Enqueuing onto a full bounded queue never adds the incoming item and
leaves the queue contents unchanged: the mic capture callback against a full
audio queue (capacity QUEUE_MAX_SIZE = 50, as built in main), and
AudioPlayer.play against a full play queue (capacity 20). -/
theorem C5_full_queue_drops_newest (items pitems indata : List (List ℚ))
    (audio : List ℚ) (running enable_tts : Bool)
    (hq : items.length = config.QUEUE_MAX_SIZE) (hp : pitems.length = 20) :
    MicCapture.audio_callback running ⟨config.QUEUE_MAX_SIZE, items⟩ indata
        = ⟨config.QUEUE_MAX_SIZE, items⟩
    ∧ AudioPlayer.play enable_tts ⟨20, pitems⟩ audio = ⟨20, pitems⟩ := by
  constructor
  · cases running <;>
      simp [MicCapture.audio_callback, BQueue.safe_put, BQueue.full, hq]
  · cases enable_tts <;>
      simp [AudioPlayer.play, BQueue.full, hp]

/-- Witness for C5: two concretely full queues. -/
theorem C5_witness :
    MicCapture.audio_callback true
        ⟨config.QUEUE_MAX_SIZE, List.replicate 50 ([] : List ℚ)⟩ [[1]]
        = ⟨config.QUEUE_MAX_SIZE, List.replicate 50 ([] : List ℚ)⟩
    ∧ AudioPlayer.play true ⟨20, List.replicate 20 ([] : List ℚ)⟩ [1]
        = ⟨20, List.replicate 20 ([] : List ℚ)⟩ :=
  C5_full_queue_drops_newest (List.replicate 50 []) (List.replicate 20 [])
    [[1]] [1] true true (by simp [config.QUEUE_MAX_SIZE]) (by simp)

/-- C7. A single call to SileroVAD.process_chunk returns at most one
utterance: its result component is either none or exactly one utterance,
whatever the input chunk, state and probability model. -/
theorem C7_at_most_one_utterance (prob : List ℚ → ℚ) (s : VADState)
    (now : ℚ) (chunk : List ℚ) :
    (process_chunk prob s now chunk).2 = none
    ∨ ∃ u, (process_chunk prob s now chunk).2 = some u := by
  cases h : (process_chunk prob s now chunk).2 with
  | none => exact Or.inl rfl
  | some u => exact Or.inr ⟨u, rfl⟩

/-- C8 counterexample. For the whitespace-only text " " the claim fails:
translate_text returns "" rather than the input unchanged, because the
text.strip() emptiness check precedes the equal-language check. -/
theorem C8_cex :
    translate_text okEngine " " "en" "en" = "" ∧ (" " : String) ≠ "" := by
  constructor
  · rfl
  · decide

/-- C8 (amended). For every text with at least one non-whitespace character,
translate_text(text, l, l) returns the input unchanged. -/
theorem C8_translate_identity
    (engine : String → String → String → Except String String)
    (text l : String) (h : pyStrip text ≠ "") :
    translate_text engine text l l = text := by
  have ht : ¬ (text = "" ∨ pyStrip text = "") := by
    rintro (rfl | h2)
    · exact h rfl
    · exact h h2
  simp [translate_text, ht]

/-- Witness for C8 at concrete inputs. -/
theorem C8_witness : translate_text okEngine "hello" "en" "en" = "hello" :=
  C8_translate_identity okEngine "hello" "en" (by decide)

/-- C9 counterexample. With the model not loaded (as after construction, or
after a failed CPU load), transcribe raises RuntimeError instead of
returning the empty string: the claim's "never raises" fails. -/
theorem C9_cex :
    WhisperASR.transcribe none errEngine [] "en"
      = PyOutcome.raised "Whisper model not loaded. Call load() first." := rfl

/-- C9 (amended). Whenever the model is loaded, transcribe returns normally
for every audio input, language and engine behaviour, and returns the empty
string when the recognition engine raises. -/
theorem C9_transcribe_loaded_total
    (engine : List ℚ → String → Except String (List String))
    (audio : List ℚ) (language : String) :
    (∃ s, WhisperASR.transcribe (some ()) engine audio language
        = PyOutcome.ok s)
    ∧ (∀ e, engine audio ((LANG_MAP.lookup language).getD language)
          = Except.error e →
        WhisperASR.transcribe (some ()) engine audio language
          = PyOutcome.ok "") := by
  constructor
  · cases h : engine audio ((LANG_MAP.lookup language).getD language) with
    | error e => exact ⟨"", by simp [WhisperASR.transcribe, h]⟩
    | ok segments =>
        exact ⟨String.intercalate " "
            ((segments.map pyStrip).filter (fun t => t ≠ "")),
          by simp [WhisperASR.transcribe, h]⟩
  · intro e he
    simp [WhisperASR.transcribe, he]

/-- Witness for C9: a raising engine with the model loaded yields "". -/
theorem C9_witness :
    WhisperASR.transcribe (some ()) errEngine [] "en" = PyOutcome.ok "" :=
  (C9_transcribe_loaded_total errEngine [] "en").2 "boom" rfl

/-- np.linspace always returns exactly num points. -/
theorem linspace_length (a b : ℚ) (num : ℕ) : (linspace a b num).length = num := by
  unfold linspace
  split
  next h => simp [h]
  next h =>
    split
    next h1 => simp [h1]
    next h1 => rw [List.length_map, List.length_range]

/-- C4 counterexample. For the non-empty 5-sample block at native rate 48000
and target rate 16000, the resampling step produces int(5 * 1/3) = 1 sample,
whereas the claimed round(5 * 16000 / 48000) is 2. -/
theorem C4_cex :
    (resampleBlock 48000 16000 [1, 1, 1, 1, 1]).length = 1
    ∧ round ((([1, 1, 1, 1, 1] : List ℚ).length : ℚ) * 16000 / 48000) = 2 := by
  constructor
  · rfl
  · norm_num [round_eq]

/-- C4 (amended). The resampling step is a pure function: empty input gives
empty output; a block of more than one sample gives exactly
int(n * target_sr / native_sr) samples (truncating division, not rounding)
by linear interpolation; a block of at most one sample is passed through
unchanged. -/
theorem C4_resample_length (native_sr target_sr : ℕ) (mono : List ℚ) :
    (mono = [] → resampleBlock native_sr target_sr mono = [])
    ∧ (1 < mono.length →
        (resampleBlock native_sr target_sr mono).length
          = mono.length * target_sr / native_sr)
    ∧ (mono.length ≤ 1 → resampleBlock native_sr target_sr mono = mono) := by
  refine ⟨?_, ?_, ?_⟩
  · rintro rfl
    rfl
  · intro h
    simp [resampleBlock, h, linspace_length]
  · intro h
    have h2 : ¬ 1 < mono.length := by omega
    simp [resampleBlock, h2]

/-- Witness for C4 at a concrete block. -/
theorem C4_witness :
    (resampleBlock 48000 16000 [1, 2, 3, 4, 5, 6]).length
      = ([1, 2, 3, 4, 5, 6] : List ℚ).length * 16000 / 48000 :=
  (C4_resample_length 48000 16000 [1, 2, 3, 4, 5, 6]).2.1 (by simp)

/-- The window loop leaves a tail strictly shorter than the window size. -/
theorem splitWindows_tail_short (n : ℕ) (audio : List ℚ) :
    0 < n → (splitWindows n audio).2.length < n := by
  refine splitWindows.induct n
    (fun audio => 0 < n → (splitWindows n audio).2.length < n) ?_ ?_ audio
  · intro x h ih hn
    rw [splitWindows, dif_pos h]
    exact ih hn
  · intro x h hn
    rw [splitWindows, dif_neg h]
    dsimp only
    omega

/-- The analysis windows followed by the tail reassemble the input. -/
theorem splitWindows_flatten (n : ℕ) (audio : List ℚ) :
    (splitWindows n audio).1.flatten ++ (splitWindows n audio).2 = audio := by
  refine splitWindows.induct n
    (fun audio =>
      (splitWindows n audio).1.flatten ++ (splitWindows n audio).2 = audio)
    ?_ ?_ audio
  · intro x h ih
    rw [splitWindows, dif_pos h]
    simp only [List.flatten_cons, List.append_assoc]
    rw [ih, List.take_append_drop]
  · intro x h
    rw [splitWindows, dif_neg h]
    simp

/-- C10. After any process_chunk call the retained leftover is strictly
shorter than the 512-sample analysis window, and it is exactly the
unanalyzed tail of the previous leftover concatenated with the input chunk:
the analyzed windows followed by the new leftover reassemble that
concatenation in order. -/
theorem C10_leftover_invariant (prob : List ℚ → ℚ) (s : VADState) (now : ℚ)
    (chunk : List ℚ) :
    (process_chunk prob s now chunk).1.leftover.length < 512
    ∧ (splitWindows 512 (s.leftover ++ chunk)).1.flatten
        ++ (process_chunk prob s now chunk).1.leftover = s.leftover ++ chunk := by
  have h1 : (process_chunk prob s now chunk).1.leftover
      = (splitWindows 512 (s.leftover ++ chunk)).2 := rfl
  rw [h1]
  exact ⟨splitWindows_tail_short 512 _ (by norm_num),
    splitWindows_flatten 512 _⟩

/-- A below-threshold window while speaking, with short accumulated silence
and the max-duration force check not yet due, only appends the window and
starts or keeps the silence timer. -/
theorem stepWindow_silence_short (now : ℚ) (w : List ℚ) (p : ℚ)
    (b : List (List ℚ)) (ss : Option ℚ) (ts : ℚ) (lo : List ℚ)
    (r : Option (List ℚ))
    (hp : p < config.VAD_THRESHOLD)
    (hmax : now - ts < config.MAX_SPEECH_DURATION_S)
    (hsil : ∀ t, ss = some t → (now - t) * 1000 < config.VAD_MIN_SILENCE_MS) :
    stepWindow now w p ⟨b, true, ss, some ts, lo⟩ r
      = (⟨b ++ [w], true, some (ss.getD now), some ts, lo⟩, r) := by
  have hge : ¬ (p ≥ config.VAD_THRESHOLD) := not_le.mpr hp
  have hforce : ¬ (now - ts ≥ config.MAX_SPEECH_DURATION_S) := not_le.mpr hmax
  cases ss with
  | none => simp [stepWindow, hge, hforce]
  | some t =>
      have htr : ¬ ((now - t) * 1000 ≥ config.VAD_MIN_SILENCE_MS) :=
        not_le.mpr (hsil t rfl)
      simp [stepWindow, hge, hforce, htr]

/-- An above-threshold window while already speaking appends the window,
clears the silence timer and keeps the original speech start. -/
theorem stepWindow_speech_cont (now ts : ℚ) (w : List ℚ) (p : ℚ)
    (b : List (List ℚ)) (ss : Option ℚ) (lo : List ℚ) (r : Option (List ℚ))
    (hp : p ≥ config.VAD_THRESHOLD)
    (hmax : now - ts < config.MAX_SPEECH_DURATION_S) :
    stepWindow now w p ⟨b, true, ss, some ts, lo⟩ r
      = (⟨b ++ [w], true, none, some ts, lo⟩, r) := by
  have hforce : ¬ (now - ts ≥ config.MAX_SPEECH_DURATION_S) := not_le.mpr hmax
  simp [stepWindow, hp, hforce]

/-- An above-threshold window while idle starts speaking at `now`. -/
theorem stepWindow_speech_start (now : ℚ) (w : List ℚ) (p : ℚ)
    (b : List (List ℚ)) (ss st : Option ℚ) (lo : List ℚ)
    (r : Option (List ℚ)) (hp : p ≥ config.VAD_THRESHOLD) :
    stepWindow now w p ⟨b, false, ss, st, lo⟩ r
      = (⟨b ++ [w], true, none, some now, lo⟩, r) := by
  have hforce : ¬ (config.MAX_SPEECH_DURATION_S ≤ 0) := by
    norm_num [config.MAX_SPEECH_DURATION_S]
  simp [stepWindow, hp, hforce]

/-- A below-threshold window while speaking with the silence timer expired
and the accumulated audio long enough emits the buffered utterance and
resets the state. -/
theorem stepWindow_silence_emit (now t : ℚ) (w : List ℚ) (p : ℚ)
    (b : List (List ℚ)) (st : Option ℚ) (lo : List ℚ) (r : Option (List ℚ))
    (hp : p < config.VAD_THRESHOLD)
    (htrig : (now - t) * 1000 ≥ config.VAD_MIN_SILENCE_MS)
    (hd : ((b ++ [w]).flatten.length : ℚ) / (config.SAMPLE_RATE : ℚ)
        ≥ config.MIN_SPEECH_DURATION_S) :
    stepWindow now w p ⟨b, true, some t, st, lo⟩ r
      = (VADState.init, some ((b ++ [w]).flatten)) := by
  have hge : ¬ (p ≥ config.VAD_THRESHOLD) := not_le.mpr hp
  have hd2 := hd
  simp at hd2
  simp [stepWindow, hge, htrig, hd2, VADState.init]

/-- Same as stepWindow_silence_emit but with the accumulated audio too
short: the segment is discarded (state reset, no emission). -/
theorem stepWindow_silence_discard (now t : ℚ) (w : List ℚ) (p : ℚ)
    (b : List (List ℚ)) (st : Option ℚ) (lo : List ℚ) (r : Option (List ℚ))
    (hp : p < config.VAD_THRESHOLD)
    (htrig : (now - t) * 1000 ≥ config.VAD_MIN_SILENCE_MS)
    (hd : ((b ++ [w]).flatten.length : ℚ) / (config.SAMPLE_RATE : ℚ)
        < config.MIN_SPEECH_DURATION_S) :
    stepWindow now w p ⟨b, true, some t, st, lo⟩ r
      = (VADState.init, r) := by
  have hge : ¬ (p ≥ config.VAD_THRESHOLD) := not_le.mpr hp
  have hd' : ¬ (((b ++ [w]).flatten.length : ℚ) / (config.SAMPLE_RATE : ℚ)
      ≥ config.MIN_SPEECH_DURATION_S) := not_le.mpr hd
  simp at hd'
  have hd2 := not_le.mpr hd'
  simp [stepWindow, hge, htrig, hd2, VADState.init]

/-- A below-threshold window while speaking, with no silence timer yet but
the max-duration force check due, force-emits the buffer and resets. -/
theorem stepWindow_force_flush (now ts : ℚ) (w : List ℚ) (p : ℚ)
    (b : List (List ℚ)) (lo : List ℚ) (r : Option (List ℚ))
    (hp : p < config.VAD_THRESHOLD)
    (hforce : now - ts ≥ config.MAX_SPEECH_DURATION_S) :
    stepWindow now w p ⟨b, true, none, some ts, lo⟩ r
      = (VADState.init, some ((b ++ [w]).flatten)) := by
  have hge : ¬ (p ≥ config.VAD_THRESHOLD) := not_le.mpr hp
  simp [stepWindow, hge, hforce, VADState.init]

/-- Folding the window loop over a run of below-threshold windows while
speaking, when the silence timer stays short of VAD_MIN_SILENCE_MS and the
force check is not due, appends every window, stays speaking and emits
nothing. -/
theorem foldl_silence_short (prob : List ℚ → ℚ) (now : ℚ) :
    ∀ (ws : List (List ℚ)) (b : List (List ℚ)) (ss : Option ℚ) (ts : ℚ)
      (lo : List ℚ) (r : Option (List ℚ)),
      now - ts < config.MAX_SPEECH_DURATION_S →
      (∀ t, ss = some t → (now - t) * 1000 < config.VAD_MIN_SILENCE_MS) →
      (∀ w ∈ ws, prob w < config.VAD_THRESHOLD) →
      ∃ ss' : Option ℚ,
        ws.foldl (fun acc w => stepWindow now w (prob w) acc.1 acc.2)
            (⟨b, true, ss, some ts, lo⟩, r)
          = (⟨b ++ ws, true, ss', some ts, lo⟩, r) := by
  intro ws
  induction ws with
  | nil =>
      intro b ss ts lo r h1 h2 h3
      exact ⟨ss, by simp⟩
  | cons w ws ih =>
      intro b ss ts lo r h1 h2 h3
      rw [List.foldl_cons,
        stepWindow_silence_short now w (prob w) b ss ts lo r
          (h3 w (List.mem_cons_self w ws)) h1 h2]
      have h2' : ∀ t, (some (ss.getD now) : Option ℚ) = some t →
          (now - t) * 1000 < config.VAD_MIN_SILENCE_MS := by
        intro t ht
        cases ss with
        | none =>
            simp only [Option.getD_none, Option.some.injEq] at ht
            rw [← ht, sub_self]
            norm_num [config.VAD_MIN_SILENCE_MS]
        | some t0 =>
            simp only [Option.getD_some, Option.some.injEq] at ht
            rw [← ht]
            exact h2 t0 rfl
      obtain ⟨ss', hss'⟩ := ih (b ++ [w]) (some (ss.getD now)) ts lo r h1 h2'
        (fun x hx => h3 x (List.mem_cons_of_mem _ hx))
      refine ⟨ss', ?_⟩
      rw [hss']
      simp

/-- C6 (amended). While the VAD is Speaking and the wall-clock speech
duration has not yet reached MAX_SPEECH_DURATION_S, a call whose analysis
windows are all below threshold and whose accumulated silence stays
strictly shorter than VAD_MIN_SILENCE_MS never finalizes: the VAD stays in
the Speaking state, the windows are appended to the speech buffer, and
nothing is emitted.  (Without the max-duration proviso the claim fails:
see the counterexample, where the force-flush path finalizes.) -/
theorem C6_short_silence_no_finalize (prob : List ℚ → ℚ) (s : VADState)
    (now ts : ℚ) (chunk : List ℚ)
    (hsp : s.is_speaking = true)
    (hst : s.speech_start = some ts)
    (hmax : now - ts < config.MAX_SPEECH_DURATION_S)
    (hsil : ∀ t, s.silence_start = some t →
      (now - t) * 1000 < config.VAD_MIN_SILENCE_MS)
    (hw : ∀ w ∈ (splitWindows 512 (s.leftover ++ chunk)).1,
      prob w < config.VAD_THRESHOLD) :
    (process_chunk prob s now chunk).1.is_speaking = true
    ∧ (process_chunk prob s now chunk).1.speech_buffer
        = s.speech_buffer ++ (splitWindows 512 (s.leftover ++ chunk)).1
    ∧ (process_chunk prob s now chunk).2 = none := by
  obtain ⟨b, sp, ss, st, lo⟩ := s
  simp only at hsp hst hsil hw
  subst hsp
  subst hst
  obtain ⟨ss', hfold⟩ := foldl_silence_short prob now
    (splitWindows 512 (lo ++ chunk)).1 b ss ts [] none hmax hsil hw
  unfold process_chunk
  dsimp only
  rw [hfold]
  simp

/-- Witness for C6 at a concrete speaking state. -/
theorem C6_witness :
    (process_chunk probHead ⟨[], true, none, some 0, []⟩ 1 []).1.is_speaking
        = true
    ∧ (process_chunk probHead ⟨[], true, none, some 0, []⟩ 1 []).1.speech_buffer
        = [] ++ (splitWindows 512
            ((⟨[], true, none, some 0, []⟩ : VADState).leftover ++ [])).1
    ∧ (process_chunk probHead ⟨[], true, none, some 0, []⟩ 1 []).2 = none :=
  C6_short_silence_no_finalize probHead ⟨[], true, none, some 0, []⟩ 1 0 []
    rfl rfl (by norm_num [config.MAX_SPEECH_DURATION_S]) (by simp)
    (by
      intro w hw
      rw [show ((⟨[], true, none, some 0, []⟩ : VADState).leftover
          ++ ([] : List ℚ)) = [] from rfl] at hw
      rw [splitWindows, dif_neg (by simp)] at hw
      simp at hw)

/-- A 512-sample input is sliced into exactly one analysis window. -/
theorem splitWindows_single (audio : List ℚ) (h : audio.length = 512) :
    splitWindows 512 audio = ([audio], []) := by
  rw [splitWindows, dif_pos ⟨by norm_num, by omega⟩]
  dsimp only
  rw [List.take_of_length_le (by omega), List.drop_eq_nil_of_le (by omega)]
  rw [splitWindows, dif_neg (by simp)]

/-- Slicing the concatenation of k copies of a 512-sample window yields
those k windows and an empty tail. -/
theorem splitWindows_replicate (k : ℕ) (w : List ℚ) (hw : w.length = 512) :
    splitWindows 512 ((List.replicate k w).flatten)
      = (List.replicate k w, []) := by
  induction k with
  | zero =>
      simp only [List.replicate_zero, List.flatten_nil]
      rw [splitWindows, dif_neg (by simp)]
  | succ k ih =>
      rw [List.replicate_succ, List.flatten_cons]
      have hlen : 0 < 512 ∧
          512 ≤ (w ++ (List.replicate k w).flatten).length := by
        constructor
        · norm_num
        · simp [hw]
      rw [splitWindows, dif_pos hlen]
      dsimp only
      rw [List.take_left' hw, List.drop_left' hw, ih]

/-- Folding the window loop over k copies of the all-ones speech window,
while speaking with the force check not due, appends all of them. -/
theorem foldl_speech_w1 (now ts : ℚ)
    (hmax : now - ts < config.MAX_SPEECH_DURATION_S) :
    ∀ (k : ℕ) (b : List (List ℚ)) (lo : List ℚ) (r : Option (List ℚ)),
      (List.replicate k w1).foldl
          (fun acc w => stepWindow now w (probHead w) acc.1 acc.2)
          (⟨b, true, none, some ts, lo⟩, r)
        = (⟨b ++ List.replicate k w1, true, none, some ts, lo⟩, r) := by
  intro k
  induction k with
  | zero =>
      intro b lo r
      simp
  | succ k ih =>
      intro b lo r
      have hpw : probHead w1 ≥ config.VAD_THRESHOLD := by
        rw [show probHead w1 = 1 from rfl]
        norm_num [config.VAD_THRESHOLD]
      rw [List.replicate_succ, List.foldl_cons,
        stepWindow_speech_cont now ts w1 (probHead w1) b none lo r hpw hmax,
        ih (b ++ [w1]) lo r]
      simp [List.replicate_succ]

/-- Feeding k+1 consecutive speech windows to a fresh VAD at time 0 leaves
it speaking with all windows buffered and nothing emitted. -/
theorem process_chunk_speech_from_init (k : ℕ) :
    process_chunk probHead VADState.init 0 ((List.replicate (k + 1) w1).flatten)
      = (⟨List.replicate (k + 1) w1, true, none, some 0, []⟩, none) := by
  have hpw : probHead w1 ≥ config.VAD_THRESHOLD := by
    rw [show probHead w1 = 1 from rfl]
    norm_num [config.VAD_THRESHOLD]
  unfold process_chunk
  dsimp only
  rw [show VADState.init.leftover ++ (List.replicate (k + 1) w1).flatten
      = (List.replicate (k + 1) w1).flatten from rfl]
  rw [splitWindows_replicate (k + 1) w1
    (by simp only [w1, List.length_replicate])]
  dsimp only
  rw [show ({VADState.init with leftover := []} : VADState)
      = ⟨[], false, none, none, []⟩ from rfl]
  rw [List.replicate_succ, List.foldl_cons,
    stepWindow_speech_start 0 w1 (probHead w1) [] none none [] none hpw,
    foldl_speech_w1 0 0 (by norm_num [config.MAX_SPEECH_DURATION_S]) k
      ([] ++ [w1]) [] none]
  simp [List.replicate_succ]

/-- C6 counterexample. One 512-sample speech window at time 0, then one
silence window at time 17 (first silence, so the accumulated silence is 0 ms,
far below VAD_MIN_SILENCE_MS): process_chunk nevertheless finalizes via the
max-duration force-flush (17 s elapsed >= 15 s), emits an utterance and
leaves the Speaking state, refuting the unconditional claim. -/
theorem C6_cex :
    (process_chunk probHead
        (process_chunk probHead VADState.init 0 w1).1 17 w0).1.is_speaking
      = false
    ∧ (process_chunk probHead
        (process_chunk probHead VADState.init 0 w1).1 17 w0).2
      = some ((List.replicate 1 w1 ++ [w0]).flatten) := by
  have hp0 : probHead w0 < config.VAD_THRESHOLD := by
    rw [show probHead w0 = 0 from rfl]
    norm_num [config.VAD_THRESHOLD]
  have e1 : (List.replicate 1 w1).flatten = w1 := by
    simp
  have hinit := process_chunk_speech_from_init 0
  rw [show (0 : ℕ) + 1 = 1 from rfl] at hinit
  have g1 : (process_chunk probHead VADState.init 0 w1).1
      = ⟨List.replicate 1 w1, true, none, some 0, []⟩ := by
    nth_rewrite 1 [← e1]
    rw [hinit]
  have g2 : process_chunk probHead
      (⟨List.replicate 1 w1, true, none, some 0, []⟩ : VADState) 17 w0
      = (VADState.init, some ((List.replicate 1 w1 ++ [w0]).flatten)) := by
    unfold process_chunk
    dsimp only
    rw [List.nil_append]
    rw [splitWindows_single w0 (by simp only [w0, List.length_replicate])]
    dsimp only
    rw [List.foldl_cons, List.foldl_nil,
      stepWindow_force_flush 17 0 w0 (probHead w0) (List.replicate 1 w1) []
        none hp0 (by norm_num [config.MAX_SPEECH_DURATION_S])]
    rfl
  rw [g1, g2]
  exact ⟨rfl, rfl⟩

/-- C1 (amended). On the silence-finalization path (below-threshold window
while Speaking with the silence timer at or past VAD_MIN_SILENCE_MS): when
the accumulated utterance has sample-count duration at least
MIN_SPEECH_DURATION_S it is emitted and the state reset, and when it is
shorter it is discarded without emission (state reset, result unchanged).
No MAX_SPEECH_DURATION_S upper bound holds on the sample-count duration of
emitted utterances — the force-flush check bounds wall-clock elapsed time
only (see the counterexample). -/
theorem C1_silence_path_duration_bounds (now t : ℚ) (w : List ℚ) (p : ℚ)
    (b : List (List ℚ)) (st : Option ℚ) (lo : List ℚ) (r : Option (List ℚ))
    (hp : p < config.VAD_THRESHOLD)
    (htrig : (now - t) * 1000 ≥ config.VAD_MIN_SILENCE_MS) :
    (((b ++ [w]).flatten.length : ℚ) / (config.SAMPLE_RATE : ℚ)
        ≥ config.MIN_SPEECH_DURATION_S →
      stepWindow now w p ⟨b, true, some t, st, lo⟩ r
        = (VADState.init, some ((b ++ [w]).flatten)))
    ∧ (((b ++ [w]).flatten.length : ℚ) / (config.SAMPLE_RATE : ℚ)
        < config.MIN_SPEECH_DURATION_S →
      stepWindow now w p ⟨b, true, some t, st, lo⟩ r
        = (VADState.init, r)) :=
  ⟨fun hd => stepWindow_silence_emit now t w p b st lo r hp htrig hd,
   fun hd => stepWindow_silence_discard now t w p b st lo r hp htrig hd⟩

/-- Witness for C1: a concrete silence finalization whose accumulated audio
(1024 samples, 0.064 s) is below the minimum and is discarded. -/
theorem C1_witness :
    stepWindow 1 w0 0 ⟨[w1], true, some 0, some 0, []⟩ none
      = (VADState.init, none) :=
  (C1_silence_path_duration_bounds 1 0 w0 0 [w1] (some 0) [] none
      (by norm_num [config.VAD_THRESHOLD])
      (by norm_num [config.VAD_MIN_SILENCE_MS])).2
    (by
      rw [show (([w1] ++ [w0]).flatten.length : ℚ) = 1024 from by
        simp only [List.singleton_append, List.flatten_cons, List.flatten_nil,
          List.append_nil, List.length_append, w1, w0, List.length_replicate]
        norm_num]
      norm_num [config.SAMPLE_RATE, config.MIN_SPEECH_DURATION_S])

/-- The flattened concatenation of k copies of an n-sample window has k*n
samples. -/
theorem flatten_replicate_length (k n : ℕ) (w : List ℚ) (hw : w.length = n) :
    (List.replicate k w).flatten.length = k * n := by
  induction k with
  | zero => simp
  | succ k ih =>
      rw [List.replicate_succ, List.flatten_cons, List.length_append, ih, hw]
      ring

/-- C1 counterexample. Feed 469 speech windows (240128 samples, just over
15 s of audio) in one call at time 0, a silence window at time 1, and a
silence window at time 1.7: the silence path emits an utterance of 241152
samples, whose sample-count duration 15.072 s exceeds
MAX_SPEECH_DURATION_S = 15, refuting the claimed upper bound. -/
theorem C1_cex :
    ∃ u, (process_chunk probHead
        (process_chunk probHead
          (process_chunk probHead VADState.init 0 chunk1).1 1 w0).1
        (17 / 10) w0).2 = some u
      ∧ config.MAX_SPEECH_DURATION_S
          < (u.length : ℚ) / (config.SAMPLE_RATE : ℚ) := by
  have hp0 : probHead w0 < config.VAD_THRESHOLD := by
    rw [show probHead w0 = 0 from rfl]
    norm_num [config.VAD_THRESHOLD]
  have hlen : (((List.replicate 469 w1 ++ [w0]) ++ [w0]).flatten).length
      = 241152 := by
    rw [List.flatten_append, List.flatten_append, List.length_append,
      List.length_append,
      flatten_replicate_length 469 512 w1 (by simp only [w1, List.length_replicate]),
      show ([w0] : List (List ℚ)).flatten.length = 512 from by
        simp only [List.flatten_cons, List.flatten_nil, List.append_nil, w0,
          List.length_replicate]]
  have h1 : (process_chunk probHead VADState.init 0 chunk1).1
      = ⟨List.replicate 469 w1, true, none, some 0, []⟩ := by
    have hinit := process_chunk_speech_from_init 468
    rw [show (468 : ℕ) + 1 = 469 from rfl] at hinit
    rw [show chunk1 = (List.replicate 469 w1).flatten from rfl, hinit]
  have h2 : process_chunk probHead
      (⟨List.replicate 469 w1, true, none, some 0, []⟩ : VADState) 1 w0
      = (⟨List.replicate 469 w1 ++ [w0], true, some 1, some 0, []⟩, none) := by
    unfold process_chunk
    dsimp only
    rw [List.nil_append]
    rw [splitWindows_single w0 (by simp only [w0, List.length_replicate])]
    dsimp only
    rw [List.foldl_cons, List.foldl_nil,
      stepWindow_silence_short 1 w0 (probHead w0) (List.replicate 469 w1)
        none 0 [] none hp0 (by norm_num [config.MAX_SPEECH_DURATION_S])
        (by simp)]
    rfl
  have h3 : process_chunk probHead
      (⟨List.replicate 469 w1 ++ [w0], true, some 1, some 0, []⟩ : VADState)
      (17 / 10) w0
      = (VADState.init,
         some (((List.replicate 469 w1 ++ [w0]) ++ [w0]).flatten)) := by
    unfold process_chunk
    dsimp only
    rw [List.nil_append]
    rw [splitWindows_single w0 (by simp only [w0, List.length_replicate])]
    dsimp only
    rw [List.foldl_cons, List.foldl_nil,
      stepWindow_silence_emit (17 / 10) 1 w0 (probHead w0)
        (List.replicate 469 w1 ++ [w0]) (some 0) [] none hp0
        (by norm_num [config.VAD_MIN_SILENCE_MS])
        (by
          rw [hlen]
          norm_num [config.SAMPLE_RATE, config.MIN_SPEECH_DURATION_S])]
    rfl
  refine ⟨((List.replicate 469 w1 ++ [w0]) ++ [w0]).flatten, ?_, ?_⟩
  · rw [h1]
    rw [show (process_chunk probHead
        (⟨List.replicate 469 w1, true, none, some 0, []⟩ : VADState) 1 w0).1
        = ⟨List.replicate 469 w1 ++ [w0], true, some 1, some 0, []⟩ from by
      rw [h2]]
    rw [h3]
  · rw [hlen]
    norm_num [config.MAX_SPEECH_DURATION_S, config.SAMPLE_RATE]
